/- Verification of the Kindergarten backend startup environment validator.

The source under scrutiny is the environment-variable validation module: its
checkEnvironment routine (presence, secret-strength, port/rate-limit/chat-id/origin
checks, console reporting and process.exit calls) and its validateEnvValue helper
(per-kind value validation).  The JavaScript is shallowly embedded below: the process
environment becomes an association list, console output becomes an emissions list,
and each process.exit(1) call is recorded in an exitCalls counter that also cuts off
the remainder of the run; outcome Halt means the run exited, Proceed that it returned
normally.  JavaScript primitives used by the module (parseInt, String.includes,
String.trim, String.split, the two regex tests and the WHATWG URL constructor) are
modelled by executable Lean functions on character lists. -/
import Mathlib

namespace Kindergarten

/-! ### Models of the JavaScript primitives used by the module -/

/-- Whitespace skipped by JavaScript parseInt (ASCII part of StrWhiteSpace). -/
def jsWhitespace (c : Char) : Bool :=
  c == ' ' || c == '\t' || c == '\n' || c == '\r' || c == '\x0b' || c == '\x0c'

def isHexDigitJS (c : Char) : Bool :=
  c.isDigit || ('a' ≤ c && c ≤ 'f') || ('A' ≤ c && c ≤ 'F')

def hexVal (c : Char) : Nat :=
  if c.isDigit then c.toNat - '0'.toNat
  else if 'a' ≤ c && c ≤ 'f' then c.toNat - 'a'.toNat + 10
  else c.toNat - 'A'.toNat + 10

/-- Longest digit prefix of cs in the given base; none when there is no digit (NaN). -/
def digitsVal (base : Nat) (isD : Char → Bool) (toV : Char → Nat) (cs : List Char) : Option Nat :=
  let ds := cs.takeWhile isD
  if ds.isEmpty then none
  else some (ds.foldl (fun acc c => acc * base + toV c) 0)

/-- Model of JavaScript parseInt(s) with no radix argument: skip leading whitespace,
optional sign, optional 0x or 0X hex prefix, then the longest digit prefix; none models
the NaN result when no digit follows. -/
def parseIntJS (s : String) : Option Int :=
  let cs := s.data.dropWhile jsWhitespace
  let signed : Int × List Char :=
    match cs with
    | '-' :: rest => (-1, rest)
    | '+' :: rest => (1, rest)
    | _ => (1, cs)
  match signed.2 with
  | '0' :: 'x' :: rest => (digitsVal 16 isHexDigitJS hexVal rest).map (fun n => signed.1 * n)
  | '0' :: 'X' :: rest => (digitsVal 16 isHexDigitJS hexVal rest).map (fun n => signed.1 * n)
  | _ => (digitsVal 10 Char.isDigit (fun c => c.toNat - '0'.toNat) signed.2).map
      (fun n => signed.1 * n)

def listContainsSub (pat : List Char) : List Char → Bool
  | [] => pat.isEmpty
  | c :: rest => pat.isPrefixOf (c :: rest) || listContainsSub pat rest

/-- Model of JavaScript String.prototype.includes. -/
def containsSub (s pat : String) : Bool := listContainsSub pat.data s.data

/-- Model of JavaScript String.prototype.split with a single-character separator. -/
def splitChar (sep : Char) : List Char → List (List Char)
  | [] => [[]]
  | c :: rest =>
    match splitChar sep rest with
    | [] => [[]]
    | h :: t => if c == sep then [] :: h :: t else (c :: h) :: t

/-- Model of JavaScript String.prototype.trim. -/
def trimChars (cs : List Char) : List Char :=
  ((cs.dropWhile Char.isWhitespace).reverse.dropWhile Char.isWhitespace).reverse

/-- Model of the regex test for TELEGRAM_CHAT_ID: an optional leading minus sign
followed by one or more digits, anchored at both ends. -/
def isChatIdFormat (s : String) : Bool :=
  let t := match s.data with
    | '-' :: rest => rest
    | cs => cs
  !t.isEmpty && t.all Char.isDigit

/-! ### Model of the WHATWG URL constructor used by validateEnvValue -/

/-- A URL scheme: an ASCII letter followed by letters, digits, plus, minus or dot. -/
def isValidScheme (cs : List Char) : Bool :=
  match cs with
  | [] => false
  | c :: rest => c.isAlpha && rest.all (fun d => d.isAlphanum || d == '+' || d == '-' || d == '.')

/-- The special schemes whose URLs must carry a non-empty host (file apart, whose
host may be empty). -/
def specialSchemes : List (List Char) :=
  ["http", "https", "ws", "wss", "ftp"].map String.data

/-- The part of cs after its last occurrence of sep (all of cs when sep is absent). -/
def lastComponent (sep : Char) (cs : List Char) : List Char :=
  match (splitChar sep cs).reverse with
  | [] => []
  | h :: _ => h

/-- WHATWG input preprocessing, first half: remove leading and trailing C0 control or
space code points. -/
def stripC0Space (cs : List Char) : List Char :=
  ((cs.dropWhile (fun c => decide (c ≤ ' '))).reverse.dropWhile
    (fun c => decide (c ≤ ' '))).reverse

/-- WHATWG input preprocessing, second half: remove every ASCII tab, line feed and
carriage return, anywhere in the input. -/
def removeTabNewline (cs : List Char) : List Char :=
  cs.filter (fun c => !(c == '\t' || c == '\n' || c == '\r'))

/-- The WHATWG forbidden host code points (rejected in opaque hosts of non-special
URLs). -/
def forbiddenHostChar (c : Char) : Bool :=
  c == '\x00' || c == '\t' || c == '\n' || c == '\r' || c == ' ' || c == '#' ||
  c == '/' || c == ':' || c == '<' || c == '>' || c == '?' || c == '@' ||
  c == '[' || c == '\\' || c == ']' || c == '^' || c == '|'

/-- The WHATWG forbidden domain code points (rejected, after percent-decoding, in the
hosts of special URLs): the forbidden host code points plus all C0 controls, the
percent sign and delete. -/
def forbiddenDomainChar (c : Char) : Bool :=
  forbiddenHostChar c || decide (c ≤ '\x1f') || c == '%' || c == '\x7f'

/-- Percent-decoding as applied to the host of a special URL: every valid two-hex-digit
escape becomes the coded character, invalid escapes are kept as written. -/
def percentDecode : List Char → List Char
  | [] => []
  | '%' :: h1 :: h2 :: rest =>
    if isHexDigitJS h1 && isHexDigitJS h2 then
      Char.ofNat (hexVal h1 * 16 + hexVal h2) :: percentDecode rest
    else '%' :: percentDecode (h1 :: h2 :: rest)
  | c :: rest => c :: percentDecode rest

/-- Validity of the host-and-port part of an authority (the part after the last at
sign).  A bracketed host must close its bracket around a non-empty run of IPv6
characters and may carry a decimal port; otherwise the host runs to the first colon —
for a special URL it is percent-decoded, must be non-empty and must avoid the forbidden
domain code points, for a non-special URL it is an opaque host (possibly empty)
avoiding the forbidden host code points — and whatever follows the colon must be all
decimal digits. -/
def validHostPort (special : Bool) (hostPort : List Char) : Bool :=
  match hostPort with
  | '[' :: rest =>
    let interior := rest.takeWhile (fun c => c != ']')
    match rest.dropWhile (fun c => c != ']') with
    | ']' :: t2 =>
      !interior.isEmpty &&
      interior.all (fun c => isHexDigitJS c || c == ':' || c == '.') &&
      (match t2 with
       | [] => true
       | ':' :: p => p.all Char.isDigit
       | _ => false)
    | _ => false
  | _ =>
    let host := hostPort.takeWhile (fun c => c != ':')
    let port :=
      match hostPort.dropWhile (fun c => c != ':') with
      | ':' :: p => p
      | _ => ([] : List Char)
    (if special then
      let dec := percentDecode host
      !dec.isEmpty && dec.all (fun c => !forbiddenDomainChar c)
    else
      host.all (fun c => !forbiddenHostChar c)) &&
    port.all Char.isDigit

/-- Model of the success or failure of the WHATWG new URL(value) constructor invoked by
validateEnvValue.  The input is preprocessed (end-stripping of C0 controls and spaces,
removal of tabs and newlines) and must then start with a valid scheme followed by a
colon.  A special scheme (http, https, ws, wss, ftp) skips any run of slashes and
parses an authority up to the next delimiter: userinfo before the last at sign is
unrestricted, and the host-port part must pass validHostPort with a non-empty,
forbidden-code-point-free (after percent-decoding) host and a decimal port.  A
non-special scheme followed by two slashes parses an opaque authority the same way
(empty host allowed, forbidden host code points rejected); any other non-special
remainder is an opaque path and always accepted (so no authority is required — file
also takes this branch, its empty host being allowed).  Not modelled: IDNA mapping of
non-ASCII or percent-encoded-non-ASCII domains, the numeric IPv4 host parser, and full
IPv6 syntax checking; the theorems below evaluate this model only on inputs outside
those cases. -/
def isValidURL (s : String) : Bool :=
  let cs := removeTabNewline (stripC0Space s.data)
  match splitChar ':' cs with
  | [] => false
  | [_] => false
  | scheme :: rest =>
    let afterColon := List.intercalate [':'] rest
    isValidScheme scheme &&
    (if (scheme.map Char.toLower) ∈ specialSchemes then
      validHostPort true (lastComponent '@'
        ((afterColon.dropWhile (fun c => c == '/' || c == '\\')).takeWhile
          (fun c => !(c == '/' || c == '\\' || c == '?' || c == '#'))))
    else if "//".data.isPrefixOf afterColon then
      validHostPort false (lastComponent '@'
        ((afterColon.drop 2).takeWhile (fun c => !(c == '/' || c == '?' || c == '#'))))
    else true)

/-- Modelled from the spec words for kind=url: a well-formed absolute URL consisting of
a scheme plus an authority, read as scheme, colon, two slashes, then a non-empty
authority.  This follows the specification text and exists only to be compared with the
code behaviour modelled by isValidURL. -/
def specSchemeAuthority (s : String) : Bool :=
  match splitChar ':' s.data with
  | [] => false
  | [_] => false
  | scheme :: rest =>
    let afterColon := List.intercalate [':'] rest
    isValidScheme scheme && "//".data.isPrefixOf afterColon &&
      !(((afterColon.drop 2).takeWhile (fun c => !(c == '/' || c == '?' || c == '#'))).isEmpty)

/-- Model of the email regex of validateEnvValue: one or more characters that are
neither whitespace nor an at sign, an at sign, the same kind of block, a dot inside it;
rendered as: exactly one at sign, non-empty whitespace-free part before it, a
whitespace-free part after it holding a dot at an interior position. -/
def isEmailMatch (s : String) : Bool :=
  match splitChar '@' s.data with
  | [a, b] =>
    !a.isEmpty && a.all (fun c => !c.isWhitespace) &&
    b.all (fun c => !c.isWhitespace) && ((b.drop 1).dropLast.contains '.')
  | _ => false

/-! ### validateEnvValue -/

/-- Shallow embedding of validateEnvValue (the name argument is unused by the source and
omitted).  An absent value is none; the falsy guard rejects none and the empty string;
the switch dispatches on the kind string, its default branch accepting every non-empty
string value. -/
def checkType (value : Option String) (type : String) : Bool :=
  match value with
  | none => false
  | some v =>
    if v == "" then false
    else if type == "number" then (parseIntJS v).isSome
    else if type == "boolean" then v == "true" || v == "false"
    else if type == "url" then isValidURL v
    else if type == "email" then isEmailMatch v
    else decide (0 < v.length)

/-- validateEnvValue with the url case abstracted: the try-new-URL-catch expression is
replaced by an arbitrary Boolean oracle urlOk standing for the platform constructor,
every other branch unchanged.  checkType is definitionally this function applied to the
bundled constructor model isValidURL, so whatever is proved here about the delegation
holds for the platform constructor whatever its exact behaviour. -/
def checkTypeWith (urlOk : String → Bool) (value : Option String) (type : String) : Bool :=
  match value with
  | none => false
  | some v =>
    if v == "" then false
    else if type == "number" then (parseIntJS v).isSome
    else if type == "boolean" then v == "true" || v == "false"
    else if type == "url" then urlOk v
    else if type == "email" then isEmailMatch v
    else decide (0 < v.length)

/-! ### The environment and the finding lists of checkEnvironment -/

/-- A snapshot of process.env: an association list from names to string values. -/
abbrev Env := List (String × String)

/-- Reading process.env with JavaScript truthiness folded in: an absent name and an
empty value behave identically everywhere in this module, so both read as the empty
string. -/
def envStr (env : Env) (name : String) : String :=
  match env.find? (fun p => p.1 == name) with
  | some p => p.2
  | none => ""

/-- The runtime mode: the NODE_ENV entry of the environment. -/
def nodeEnv (env : Env) : String := envStr env "NODE_ENV"

def requiredEnvVars : List String :=
  ["PORT", "JWT_SECRET", "TELEGRAM_BOT_TOKEN", "TELEGRAM_CHAT_ID"]

def optionalEnvVars : List String :=
  ["NODE_ENV", "MONGODB_URI", "SMTP_HOST", "SMTP_PORT", "SMTP_USER", "SMTP_PASS",
   "RATE_LIMIT_WINDOW_MS", "RATE_LIMIT_MAX_REQUESTS", "ALLOWED_ORIGINS", "ENCRYPTION_KEY"]

def msgJwtLen : String := "JWT_SECRET must be at least 32 characters long for security"
def msgJwtDefault : String := "JWT_SECRET is using default value - CHANGE IT IMMEDIATELY!"
def msgJwtExample : String := "JWT_SECRET appears to be using example value"
def msgBotExample : String := "TELEGRAM_BOT_TOKEN appears to be using example value"
def portWarning : String := "PORT should be a valid port number (1-65535)"
def msgRlWindow : String := "RATE_LIMIT_WINDOW_MS should be at least 1000ms"
def msgRlMax : String := "RATE_LIMIT_MAX_REQUESTS should be a positive number"
def msgChatId : String := "TELEGRAM_CHAT_ID should be a numeric value"
def originMsg (t : String) : String :=
  "Invalid origin format: " ++ t ++ ". Should start with http:// or https://"

/-- The missing list: the forEach over requiredEnvVars pushing every name whose value is
falsy (absent or empty). -/
def missingList (env : Env) : List String :=
  requiredEnvVars.foldl (fun acc n => if envStr env n == "" then acc ++ [n] else acc) []

/-- The critical list: the JWT_SECRET strength checks (length and default sentinel,
guarded by truthiness of the value) and the example-value substring check (optional
chaining, so it also fires nowhere when the value is absent or empty). -/
def criticalList (env : Env) : List String :=
  (if envStr env "JWT_SECRET" != "" then
    (if (envStr env "JWT_SECRET").length < 32 then [msgJwtLen] else []) ++
    (if envStr env "JWT_SECRET" == "play-kids-secret-key" then [msgJwtDefault] else [])
  else []) ++
  (if containsSub (envStr env "JWT_SECRET") "your_super_secret" then [msgJwtExample] else [])

/-- The PORT check condition: isNaN(parseInt(v)) or the parsed value below 1 or above
65535. -/
def portOutOfRange (v : String) : Bool :=
  match parseIntJS v with
  | none => true
  | some p => decide (p < 1) || decide (65535 < p)

def rlWindowBad (v : String) : Bool :=
  match parseIntJS v with
  | none => true
  | some w => decide (w < 1000)

def rlMaxBad (v : String) : Bool :=
  match parseIntJS v with
  | none => true
  | some m => decide (m < 1)

/-- The ALLOWED_ORIGINS check: split on commas, trim each piece, warn on every
non-empty piece that starts with neither http plus slashes nor https plus slashes. -/
def originWarnings (origins : String) : List String :=
  (splitChar ',' origins.data).foldl
    (fun acc o =>
      let t := trimChars o
      if !t.isEmpty && !("http://".data.isPrefixOf t) && !("https://".data.isPrefixOf t)
      then acc ++ [originMsg (String.mk t)] else acc) []

/-- The warnings list, in push order: bot-token placeholder, PORT range (unconditional),
the two rate-limit checks (guarded by presence), chat-id format (guarded by presence),
and the origins check (guarded by presence). -/
def warningList (env : Env) : List String :=
  (if containsSub (envStr env "TELEGRAM_BOT_TOKEN") "your_bot_token"
   then [msgBotExample] else []) ++
  (if portOutOfRange (envStr env "PORT") then [portWarning] else []) ++
  (if envStr env "RATE_LIMIT_WINDOW_MS" != "" &&
      rlWindowBad (envStr env "RATE_LIMIT_WINDOW_MS") then [msgRlWindow] else []) ++
  (if envStr env "RATE_LIMIT_MAX_REQUESTS" != "" &&
      rlMaxBad (envStr env "RATE_LIMIT_MAX_REQUESTS") then [msgRlMax] else []) ++
  (if envStr env "TELEGRAM_CHAT_ID" != "" &&
      !isChatIdFormat (envStr env "TELEGRAM_CHAT_ID") then [msgChatId] else []) ++
  (if envStr env "ALLOWED_ORIGINS" != ""
   then originWarnings (envStr env "ALLOWED_ORIGINS") else [])

/-! ### The reporting phase of checkEnvironment -/

def criticalHeader : String := "🚨 CRITICAL SECURITY ISSUES:"
def fatalNotice : String := "\n❌ Cannot start in production with critical security issues!"
def missingHeader : String := "❌ Missing required environment variables:"
def envGuidance : String := "\nPlease check your .env file and backend/.env.example"
def warnHeader : String := "⚠️  Environment warnings:"
def infoHeader : String := "ℹ️  Optional environment variables not set:"
def successMsg : String := "✅ Environment variables validated"

/-- The per-item indentation applied by every forEach console line. -/
def dash (s : String) : String := "   - " ++ s

/-- The console lines of the critical-issue block (printed whenever criticals exist,
with the fatal notice added in production right before the exit). -/
def criticalEmit (env : Env) : List String :=
  if (criticalList env).isEmpty then [] else
    criticalHeader :: (criticalList env).map dash ++
      (if nodeEnv env == "production" then [fatalNotice] else [])

/-- The console lines of the missing-variables block. -/
def missingEmit (env : Env) : List String :=
  if (missingList env).isEmpty then [] else
    missingHeader :: (missingList env).map dash ++ [envGuidance]

/-- The console lines of the warnings block. -/
def warnEmit (env : Env) : List String :=
  if (warningList env).isEmpty then [] else warnHeader :: (warningList env).map dash

/-- The console lines of the development-mode optional-variables block. -/
def infoEmit (env : Env) : List String :=
  if nodeEnv env == "development" then
    (let mo := optionalEnvVars.filter (fun v => envStr env v == "")
     if mo.isEmpty then [] else infoHeader :: mo.map dash)
  else []

inductive Outcome
  | halt
  | proceed
deriving DecidableEq

/-- The observable behaviour of one checkEnvironment run: the three finding lists, the
console lines emitted before the run ended, the number of process.exit calls the
function itself performed, and the outcome (halt when the run exited, proceed when it
returned). -/
structure CheckResult where
  missing : List String
  warnings : List String
  critical : List String
  emissions : List String
  exitCalls : Nat
  outcome : Outcome
deriving DecidableEq

/-- Shallow embedding of checkEnvironment.  The three finding lists are accumulated
first; the reporting phase then runs sequentially: the critical block exits in
production, the missing block exits in every mode, and otherwise warnings, the success
acknowledgment and the development-mode info block are printed before returning. -/
def checkEnvironment (env : Env) : CheckResult :=
  if !(criticalList env).isEmpty && (nodeEnv env == "production") then
    { missing := missingList env, warnings := warningList env, critical := criticalList env,
      emissions := criticalEmit env, exitCalls := 1, outcome := .halt }
  else if !(missingList env).isEmpty then
    { missing := missingList env, warnings := warningList env, critical := criticalList env,
      emissions := criticalEmit env ++ missingEmit env, exitCalls := 1, outcome := .halt }
  else
    { missing := missingList env, warnings := warningList env, critical := criticalList env,
      emissions := criticalEmit env ++ warnEmit env ++ successMsg :: infoEmit env,
      exitCalls := 0, outcome := .proceed }

/-! ### Helper lemmas -/

theorem foldl_push_eq_filter (p : String → Bool) (l : List String) (acc : List String) :
    l.foldl (fun acc n => if p n then acc ++ [n] else acc) acc = acc ++ l.filter p := by
  induction l generalizing acc with
  | nil => simp
  | cons x t ih =>
    simp only [List.foldl_cons, List.filter_cons]
    by_cases h : p x
    · rw [ih]; simp [h]
    · rw [ih]; simp [h]

theorem missingList_eq_filter (env : Env) :
    missingList env = requiredEnvVars.filter (fun n => envStr env n == "") := by
  have h := foldl_push_eq_filter (fun n => envStr env n == "") requiredEnvVars []
  simpa only [List.nil_append] using h

theorem checkEnvironment_missing (env : Env) :
    (checkEnvironment env).missing = missingList env := by
  unfold checkEnvironment
  split
  · rfl
  split
  · rfl
  · rfl

theorem checkEnvironment_critical (env : Env) :
    (checkEnvironment env).critical = criticalList env := by
  unfold checkEnvironment
  split
  · rfl
  split
  · rfl
  · rfl

theorem checkEnvironment_warnings (env : Env) :
    (checkEnvironment env).warnings = warningList env := by
  unfold checkEnvironment
  split
  · rfl
  split
  · rfl
  · rfl

theorem checkEnvironment_outcome (env : Env) :
    (checkEnvironment env).outcome =
      (if !(criticalList env).isEmpty && (nodeEnv env == "production") then Outcome.halt
       else if !(missingList env).isEmpty then Outcome.halt
       else Outcome.proceed) := by
  unfold checkEnvironment
  split
  · rfl
  split
  · rfl
  · rfl

theorem checkEnvironment_exitCalls (env : Env) :
    (checkEnvironment env).exitCalls =
      (if !(criticalList env).isEmpty && (nodeEnv env == "production") then 1
       else if !(missingList env).isEmpty then 1
       else 0) := by
  unfold checkEnvironment
  split
  · rfl
  split
  · rfl
  · rfl

theorem dash_ne_success (s : String) : dash s ≠ successMsg := by
  intro h
  have h2 : (dash s).data.head? = successMsg.data.head? := congrArg (fun t => t.data.head?) h
  have h3 : some ' ' = some '✅' := h2
  exact absurd (Option.some.inj h3) (by decide)

theorem successMsg_not_mem_criticalEmit (env : Env) :
    successMsg ∉ criticalEmit env := by
  unfold criticalEmit
  split
  · simp
  · intro h
    rcases List.mem_cons.mp h with h1 | h2
    · exact absurd h1 (by decide)
    rcases List.mem_append.mp h2 with h3 | h4
    · rcases List.mem_map.mp h3 with ⟨c, _, hc⟩
      exact dash_ne_success c hc
    · revert h4
      split
      · intro h4
        exact absurd (List.mem_singleton.mp h4) (by decide)
      · simp

theorem successMsg_not_mem_missingEmit (env : Env) :
    successMsg ∉ missingEmit env := by
  unfold missingEmit
  split
  · simp
  · intro h
    rcases List.mem_cons.mp h with h1 | h2
    · exact absurd h1 (by decide)
    rcases List.mem_append.mp h2 with h3 | h4
    · rcases List.mem_map.mp h3 with ⟨c, _, hc⟩
      exact dash_ne_success c hc
    · exact absurd (List.mem_singleton.mp h4) (by decide)

theorem string_length_pos_iff (s : String) : 0 < s.length ↔ s ≠ "" := by
  cases s with
  | mk data =>
    cases data with
    | nil =>
      constructor
      · intro h; exact absurd h (by decide)
      · intro h; exact absurd rfl h
    | cons c cs =>
      constructor
      · intro _ h
        have : (c :: cs : List Char) = [] := String.ext_iff.mp h
        exact absurd this (by simp)
      · intro _
        simp [String.length]

/-! ### Claim theorems -/

/-- C1: for every environment in which at least one required setting among PORT,
JWT_SECRET, TELEGRAM_BOT_TOKEN and TELEGRAM_CHAT_ID is absent or empty, the run halts
and the missing list holds exactly the absent required names, in requiredEnvVars
order. -/
theorem validate_missing_required_halts (env : Env)
    (h : ∃ n ∈ requiredEnvVars, envStr env n = "") :
    (checkEnvironment env).outcome = Outcome.halt ∧
    (checkEnvironment env).missing = requiredEnvVars.filter (fun n => envStr env n == "") := by
  obtain ⟨n, hmem, hval⟩ := h
  have hfil : n ∈ requiredEnvVars.filter (fun n => envStr env n == "") :=
    List.mem_filter.mpr ⟨hmem, by simp [hval]⟩
  have hne : missingList env ≠ [] := by
    rw [missingList_eq_filter]
    exact List.ne_nil_of_mem hfil
  constructor
  · rw [checkEnvironment_outcome]
    have hm : (!(missingList env).isEmpty) = true := by
      simp [List.isEmpty_iff, hne]
    by_cases hc : (!(criticalList env).isEmpty && (nodeEnv env == "production")) = true
    · rw [hc]; simp
    · rw [Bool.not_eq_true] at hc
      rw [hc, hm]; simp
  · rw [checkEnvironment_missing, missingList_eq_filter]

/-- C1 witness: the empty environment misses all four required settings, halts, and
lists them all in order. -/
theorem validate_missing_required_halts_witness :
    (checkEnvironment []).outcome = Outcome.halt ∧
    (checkEnvironment []).missing =
      requiredEnvVars.filter (fun n => envStr [] n == "") :=
  validate_missing_required_halts [] ⟨"PORT", by decide, rfl⟩

/-- C2: critical findings halt the run in production mode, missing findings halt it in
every mode, and a run with no missing finding and no critical-in-production condition
proceeds (warnings and info never halt). -/
theorem validate_outcome_invariant (env : Env) :
    ((checkEnvironment env).critical ≠ [] → nodeEnv env = "production" →
      (checkEnvironment env).outcome = Outcome.halt) ∧
    ((checkEnvironment env).missing ≠ [] → (checkEnvironment env).outcome = Outcome.halt) ∧
    (¬((checkEnvironment env).critical ≠ [] ∧ nodeEnv env = "production") →
      (checkEnvironment env).missing = [] →
      (checkEnvironment env).outcome = Outcome.proceed) := by
  rw [checkEnvironment_critical, checkEnvironment_missing, checkEnvironment_outcome]
  refine ⟨?_, ?_, ?_⟩
  · intro h1 h2
    have hb : (!(criticalList env).isEmpty && (nodeEnv env == "production")) = true := by
      simp [List.isEmpty_iff, h1, h2]
    rw [hb]; simp
  · intro h1
    have hm : (!(missingList env).isEmpty) = true := by
      simp [List.isEmpty_iff, h1]
    by_cases hc : (!(criticalList env).isEmpty && (nodeEnv env == "production")) = true
    · rw [hc]; simp
    · rw [Bool.not_eq_true] at hc
      rw [hc, hm]; simp
  · intro h1 h2
    have hm : (!(missingList env).isEmpty) = false := by
      simp [List.isEmpty_iff, h2]
    have hc : (!(criticalList env).isEmpty && (nodeEnv env == "production")) = false := by
      rcases not_and_or.mp h1 with h | h
      · simp [List.isEmpty_iff, not_not.mp h]
      · simp [beq_eq_false_iff_ne.mpr h]
    rw [hc, hm]; simp

/-- C2 witness: a weak secret in production halts, an empty environment (missing
settings) halts, and a fully valid development environment proceeds. -/
theorem validate_outcome_invariant_witness :
    (checkEnvironment [("PORT", "1"), ("JWT_SECRET", "short"), ("TELEGRAM_BOT_TOKEN", "t"),
        ("TELEGRAM_CHAT_ID", "1"), ("NODE_ENV", "production")]).outcome = Outcome.halt ∧
    (checkEnvironment []).outcome = Outcome.halt ∧
    (checkEnvironment [("PORT", "3000"),
        ("JWT_SECRET", "xxxxxxxxxxxxxxxxxxxxxxxxxxxxxxxxxxxxxxxx"),
        ("TELEGRAM_BOT_TOKEN", "abc"), ("TELEGRAM_CHAT_ID", "12345")]).outcome =
      Outcome.proceed :=
  ⟨(validate_outcome_invariant _).1 (by decide) (by decide),
   (validate_outcome_invariant _).2.1 (by decide),
   (validate_outcome_invariant _).2.2 (by decide) (by decide)⟩

/-- C3: when JWT_SECRET is present with length at least 32, differs from the hardcoded
default sentinel and does not contain the example substring, no critical finding is
produced at all (every critical finding of the module concerns JWT_SECRET). -/
theorem strong_jwt_no_critical (env : Env)
    (h1 : 32 ≤ (envStr env "JWT_SECRET").length)
    (h2 : envStr env "JWT_SECRET" ≠ "play-kids-secret-key")
    (h3 : containsSub (envStr env "JWT_SECRET") "your_super_secret" = false) :
    (checkEnvironment env).critical = [] := by
  rw [checkEnvironment_critical]
  unfold criticalList
  have hlen : ¬((envStr env "JWT_SECRET").length < 32) := by omega
  have hbeq : (envStr env "JWT_SECRET" == "play-kids-secret-key") = false :=
    beq_eq_false_iff_ne.mpr h2
  simp [hlen, hbeq, h3]

/-- C3 witness: a forty-character secret yields no critical finding. -/
theorem strong_jwt_no_critical_witness :
    (checkEnvironment [("JWT_SECRET", "xxxxxxxxxxxxxxxxxxxxxxxxxxxxxxxxxxxxxxxx")]).critical
      = [] :=
  strong_jwt_no_critical _ (by decide) (by decide) (by decide)

/-- C4 counterexample: on the empty environment the run halts, and checkEnvironment
itself performs the process.exit call (exitCalls is not zero), contradicting the claim
that the validator performs no process-termination action and leaves it to the
caller. -/
theorem validator_exits_itself_cex :
    (checkEnvironment []).outcome = Outcome.halt ∧
    (checkEnvironment []).exitCalls ≠ 0 := by decide

/-- C4 amended: the validator itself terminates the process, calling process.exit
exactly once when the outcome is Halt and never when it is Proceed. -/
theorem exit_exactly_on_halt (env : Env) :
    (checkEnvironment env).exitCalls =
      (if (checkEnvironment env).outcome = Outcome.halt then 1 else 0) := by
  unfold checkEnvironment
  split
  · simp
  split
  · simp
  · simp

/-- C5 counterexample: the URL constructor accepts mailto:test, an absolute URL with no
authority, so checkType answers true on a value that is not scheme-plus-authority as
the claim requires. -/
theorem url_without_authority_cex :
    checkType (some "mailto:test") "url" = true ∧
    specSchemeAuthority "mailto:test" = false := by decide

/-- C5 amended: on kind url the function delegates validity wholly to the platform URL
constructor with the parse failure caught.  For every behaviour of the constructor
(any Boolean oracle) a present, non-empty value is answered by the oracle's verdict
unchanged and no exception escapes (the embedding is total); absent and empty values
give false without consulting the oracle; and checkType is exactly this delegation
instantiated with the bundled constructor model, which — matching the constructor —
requires an authority only for the special schemes and on the sample points accepts
https://example.com, the authority-free mailto:test and the space-prefixed
 https://example.com while rejecting not-a-url, a host holding a space, and a
non-digit port. -/
theorem checkType_url_matches_platform :
    (∀ urlOk : String → Bool, ∀ v : String, v ≠ "" →
      checkTypeWith urlOk (some v) "url" = urlOk v) ∧
    (∀ urlOk : String → Bool,
      checkTypeWith urlOk none "url" = false ∧ checkTypeWith urlOk (some "") "url" = false) ∧
    (∀ value type, checkType value type = checkTypeWith isValidURL value type) ∧
    (isValidURL "https://example.com" = true ∧ isValidURL "not a url" = false ∧
     isValidURL "mailto:test" = true ∧ isValidURL " https://example.com" = true ∧
     isValidURL "http://exa mple.com" = false ∧ isValidURL "http://h:9x/" = false) := by
  refine ⟨?_, fun urlOk => ⟨rfl, rfl⟩, fun _ _ => rfl,
    by decide, by decide, by decide, by decide, by decide, by decide⟩
  intro urlOk v hv
  have hb : (v == "") = false := beq_eq_false_iff_ne.mpr hv
  simp [checkTypeWith, hb]

/-- C5 witness: the delegation theorem applied to the bundled constructor model at the
authority-free input mailto:test. -/
theorem checkType_url_matches_platform_witness :
    checkTypeWith isValidURL (some "mailto:test") "url" = isValidURL "mailto:test" :=
  checkType_url_matches_platform.1 isValidURL "mailto:test" (by decide)

/-- The concrete scenario environment of C6: all required settings present validly
except that PORT is out of range, under an arbitrary mode. -/
def portScenarioEnv (m : String) : Env :=
  [("PORT", "99999"), ("JWT_SECRET", "xxxxxxxxxxxxxxxxxxxxxxxxxxxxxxxxxxxxxxxx"),
   ("TELEGRAM_BOT_TOKEN", "abc"), ("TELEGRAM_CHAT_ID", "12345"), ("NODE_ENV", m)]

/-- C6: whenever PORT fails to parse or parses outside 1..65535 the port-range warning
is recorded, and in the scenario with every required setting valid and PORT 99999 the
warning is present and the run proceeds, in every mode. -/
theorem port_warning_nonblocking :
    (∀ env : Env, portOutOfRange (envStr env "PORT") = true →
      portWarning ∈ (checkEnvironment env).warnings) ∧
    (∀ m : String, portWarning ∈ (checkEnvironment (portScenarioEnv m)).warnings ∧
      (checkEnvironment (portScenarioEnv m)).outcome = Outcome.proceed) := by
  constructor
  · intro env h
    rw [checkEnvironment_warnings]
    unfold warningList
    rw [h]
    simp [List.mem_append]
  · intro m
    have e1 : envStr (portScenarioEnv m) "TELEGRAM_BOT_TOKEN" = "abc" := rfl
    have e2 : envStr (portScenarioEnv m) "PORT" = "99999" := rfl
    have e3 : envStr (portScenarioEnv m) "RATE_LIMIT_WINDOW_MS" = "" := rfl
    have e4 : envStr (portScenarioEnv m) "RATE_LIMIT_MAX_REQUESTS" = "" := rfl
    have e5 : envStr (portScenarioEnv m) "TELEGRAM_CHAT_ID" = "12345" := rfl
    have e6 : envStr (portScenarioEnv m) "ALLOWED_ORIGINS" = "" := rfl
    have e7 : envStr (portScenarioEnv m) "JWT_SECRET" =
        "xxxxxxxxxxxxxxxxxxxxxxxxxxxxxxxxxxxxxxxx" := rfl
    have hc : criticalList (portScenarioEnv m) = [] := by
      unfold criticalList
      rw [e7]
      decide
    have hm : missingList (portScenarioEnv m) = [] := rfl
    refine ⟨?_, ?_⟩
    · rw [checkEnvironment_warnings]
      unfold warningList
      rw [e1, e2, e3, e4, e5, e6]
      decide
    · rw [checkEnvironment_outcome]
      rw [hc, hm]
      rfl

/-- C6 witness: the scenario in production mode records the port warning. -/
theorem port_warning_nonblocking_witness :
    portWarning ∈ (checkEnvironment (portScenarioEnv "production")).warnings :=
  port_warning_nonblocking.1 (portScenarioEnv "production") (by decide)

/-- C7: for every kind, an absent value and an empty string value yield false. -/
theorem checkType_absent_or_empty_false (kind : String) :
    checkType none kind = false ∧ checkType (some "") kind = false := ⟨rfl, rfl⟩

/-- The C8 counterexample environment: nothing missing, but a weak JWT_SECRET in
production mode, so the run exits at the critical block. -/
def criticalProdEnv : Env :=
  [("PORT", "3000"), ("JWT_SECRET", "short"), ("TELEGRAM_BOT_TOKEN", "t"),
   ("TELEGRAM_CHAT_ID", "1"), ("NODE_ENV", "production")]

/-- C8 counterexample: an environment with no missing finding whose run nevertheless
emits no success acknowledgment, because the critical-in-production exit fires first. -/
theorem success_ack_not_emitted_cex :
    (checkEnvironment criticalProdEnv).missing = [] ∧
    successMsg ∉ (checkEnvironment criticalProdEnv).emissions := by decide

/-- C8 amended: the success acknowledgment is emitted exactly when the run proceeds —
no missing finding and no critical-in-production halt — and it is emitted before
returning, warnings notwithstanding. -/
theorem success_ack_iff_proceed (env : Env) :
    successMsg ∈ (checkEnvironment env).emissions ↔
    (checkEnvironment env).outcome = Outcome.proceed := by
  unfold checkEnvironment
  split
  · constructor
    · intro h
      exact absurd h (successMsg_not_mem_criticalEmit env)
    · intro h
      exact Outcome.noConfusion h
  split
  · constructor
    · intro h
      rcases List.mem_append.mp h with h1 | h2
      · exact absurd h1 (successMsg_not_mem_criticalEmit env)
      · exact absurd h2 (successMsg_not_mem_missingEmit env)
    · intro h
      exact Outcome.noConfusion h
  · constructor
    · intro _
      rfl
    · intro _
      refine List.mem_append.mpr (Or.inr ?_)
      exact List.mem_cons_self _ _

/-- C9: every kind outside number, boolean, url and email falls to the default branch
and behaves as the string kind: true exactly on present, non-empty values. -/
theorem checkType_unknown_kind_as_string (kind : String)
    (h : kind ∉ (["number", "boolean", "url", "email"] : List String)) (v : Option String) :
    checkType v kind = checkType v "string" ∧
    (checkType v kind = true ↔ ∃ s, v = some s ∧ s ≠ "") := by
  have h1 : (kind == "number") = false := by
    refine beq_eq_false_iff_ne.mpr ?_
    intro e; exact h (by rw [e]; decide)
  have h2 : (kind == "boolean") = false := by
    refine beq_eq_false_iff_ne.mpr ?_
    intro e; exact h (by rw [e]; decide)
  have h3 : (kind == "url") = false := by
    refine beq_eq_false_iff_ne.mpr ?_
    intro e; exact h (by rw [e]; decide)
  have h4 : (kind == "email") = false := by
    refine beq_eq_false_iff_ne.mpr ?_
    intro e; exact h (by rw [e]; decide)
  cases v with
  | none => simp [checkType]
  | some s =>
    by_cases hs : s = ""
    · subst hs
      simp [checkType]
    · have hsb : (s == "") = false := beq_eq_false_iff_ne.mpr hs
      have hlen : 0 < s.length := (string_length_pos_iff s).mpr hs
      simp [checkType, h1, h2, h3, h4, hsb, hlen, hs]

/-- C9 witness: the unknown kind text behaves as the string kind on a sample value. -/
theorem checkType_unknown_kind_as_string_witness :
    checkType (some "a") "text" = checkType (some "a") "string" ∧
    (checkType (some "a") "text" = true ↔ ∃ s, (some "a" : Option String) = some s ∧ s ≠ "") :=
  checkType_unknown_kind_as_string "text" (by decide) (some "a")

/-- C10: the PORT range check is unconditional, so an environment with PORT absent or
empty records both the missing finding for PORT and the port-range warning. -/
theorem port_absent_missing_and_warning (env : Env) (h : envStr env "PORT" = "") :
    "PORT" ∈ (checkEnvironment env).missing ∧
    portWarning ∈ (checkEnvironment env).warnings := by
  constructor
  · rw [checkEnvironment_missing, missingList_eq_filter]
    exact List.mem_filter.mpr ⟨by decide, by simp [h]⟩
  · rw [checkEnvironment_warnings]
    unfold warningList
    have hp : portOutOfRange (envStr env "PORT") = true := by rw [h]; rfl
    rw [hp]
    simp [List.mem_append]

/-- C10 witness: with only JWT_SECRET set, PORT is both listed missing and warned
about. -/
theorem port_absent_missing_and_warning_witness :
    "PORT" ∈ (checkEnvironment [("JWT_SECRET", "s")]).missing ∧
    portWarning ∈ (checkEnvironment [("JWT_SECRET", "s")]).warnings :=
  port_absent_missing_and_warning [("JWT_SECRET", "s")] rfl

end Kindergarten
